import Mathlib

/-!
Shallow embedding of the text2sql context-agent core
(`src/agents/context_agent/{schema_mapper,filter_builder,context_enricher}.py`).

The MetaStore (the Metadata Provider of spec §6) is the external collaborator:
it is modelled as a record of response functions matching the contract the core
consumes.  Python dynamic values that flow through filter processing are
modelled by `PyVal` (strings, integers and lists); similarity scores are
rationals in place of Python floats (the code only compares them against the
literal thresholds 0.7 and 0.8).  Fallible Python code (raise / try-except)
is modelled with `Except`.
-/

/-- Python runtime value as it appears in entity values and filter values:
a string, an integer, or a (nested) list. -/
inductive PyVal where
  | str : String → PyVal
  | int : Int → PyVal
  | list : List PyVal → PyVal

/-- Python truthiness (`not value`) restricted to the shapes of `PyVal`:
empty string, zero and empty list are falsy. -/
def pyFalsy : PyVal → Bool
  | .str s => s = ""
  | .int n => n = 0
  | .list l => l.isEmpty

mutual

/-- Python `repr` of a value, used for elements of a list under `str`. -/
def pyRepr : PyVal → String
  | .str s => "\x27" ++ s ++ "\x27"
  | .int n => toString n
  | .list l => "[" ++ pyReprList l ++ "]"

/-- Comma-separated `repr`s of the elements of a list. -/
def pyReprList : List PyVal → String
  | [] => ""
  | [v] => pyRepr v
  | v :: rest => pyRepr v ++ ", " ++ pyReprList rest

end

/-- Python `str()` of a value (used by f-string interpolation in the source). -/
def pyStr : PyVal → String
  | .str s => s
  | .int n => toString n
  | .list l => pyRepr (.list l)

/-- Whether `p` occurs as a contiguous run inside the character list. -/
def containsSubstrAux (p : List Char) : List Char → Bool
  | [] => p.isEmpty
  | c :: rest => p.isPrefixOf (c :: rest) || containsSubstrAux p rest

/-- Substring containment: Python's `pat in s`. -/
def containsSubstr (s pat : String) : Bool :=
  containsSubstrAux pat.toList s.toList

/-- Locate the first occurrence of `sep` in the character list, returning the
characters before it and the characters after it. -/
def findSepAux (sep : List Char) : List Char → List Char → Option (List Char × List Char)
  | [], _ => none
  | c :: rest, acc =>
    if sep.isPrefixOf (c :: rest) then some (acc.reverse, (c :: rest).drop sep.length)
    else findSepAux sep rest (c :: acc)

/-- Python `s.split(sep, 1)`: split on the first occurrence of `sep` only;
a string with no occurrence yields the one-element list `[s]`. -/
def splitOnce (s sep : String) : List String :=
  match findSepAux sep.toList s.toList [] with
  | some (a, b) => [String.mk a, String.mk b]
  | none => [s]

/-- Fold a list of decimal digit characters into the number they denote. -/
def natOfDigits (ds : List Char) : Nat :=
  ds.foldl (fun n c => 10 * n + (c.toNat - 48)) 0

/-- Maximal runs of decimal digits in a character list, as numbers
(the model of `re.findall(r'\d+', s)` followed by `int`). -/
def digitRunsAux : List Char → List Char → List Nat
  | [], acc => if acc.isEmpty then [] else [natOfDigits acc.reverse]
  | c :: rest, acc =>
    if c.isDigit then digitRunsAux rest (c :: acc)
    else if acc.isEmpty then digitRunsAux rest []
    else natOfDigits acc.reverse :: digitRunsAux rest []

/-- All embedded numbers of a string, in order: `re.findall(r'\d+', s)`. -/
def findNumbers (s : String) : List Nat := digitRunsAux s.toList []

/-- Python `str.title()` over a character list: an alphabetic character is
uppercased when the previous character is not alphabetic, lowercased
otherwise. -/
def titleAux : List Char → Bool → List Char
  | [], _ => []
  | c :: rest, prevAlpha =>
    (if c.isAlpha then (if prevAlpha then c.toLower else c.toUpper) else c)
      :: titleAux rest c.isAlpha

/-- Python `str.title()`. -/
def titleCase (s : String) : String := String.mk (titleAux s.toList false)

/-- A calendar date, as in Python's `datetime.date`. -/
structure Date where
  year : Int
  month : Int
  day : Int
deriving DecidableEq, Repr

/-- Days since the epoch 1970-01-01 of a civil date
(the standard proleptic-Gregorian day count used by `datetime`). -/
def Date.toDays (d : Date) : Int :=
  let y := if d.month ≤ 2 then d.year - 1 else d.year
  let era := Int.fdiv y 400
  let yoe := y - era * 400
  let mp := Int.fmod (d.month + 9) 12
  let doy := Int.fdiv (153 * mp + 2) 5 + d.day - 1
  let doe := yoe * 365 + Int.fdiv yoe 4 - Int.fdiv yoe 100 + doy
  era * 146097 + doe - 719468

/-- The civil date of a day count (inverse of `Date.toDays`). -/
def Date.ofDays (z0 : Int) : Date :=
  let z := z0 + 719468
  let era := Int.fdiv z 146097
  let doe := z - era * 146097
  let yoe := Int.fdiv (doe - Int.fdiv doe 1460 + Int.fdiv doe 36524 - Int.fdiv doe 146096) 365
  let y := yoe + era * 400
  let doy := doe - (365 * yoe + Int.fdiv yoe 4 - Int.fdiv yoe 100)
  let mp := Int.fdiv (5 * doy + 2) 153
  let d := doy - Int.fdiv (153 * mp + 2) 5 + 1
  let m := if mp < 10 then mp + 3 else mp - 9
  ⟨if m ≤ 2 then y + 1 else y, m, d⟩

/-- Embedding of `today - datetime.timedelta(days=n)`. -/
def Date.subDays (d : Date) (n : Int) : Date := Date.ofDays (d.toDays - n)

/-- Zero-pad the decimal rendering of a natural number to width `w`. -/
def padNat (w : Nat) (n : Nat) : String :=
  let s := toString n
  String.mk (List.replicate (w - s.length) '0') ++ s

/-- Python `date.isoformat()`: `YYYY-MM-DD`. -/
def Date.isoformat (d : Date) : String :=
  padNat 4 d.year.toNat ++ "-" ++ padNat 2 d.month.toNat ++ "-" ++ padNat 2 d.day.toNat

/-- Column metadata as returned by the Metadata Provider
(`get_table_metadata(...)["columns"]` entries). -/
structure ColumnMetadata where
  name : String
  data_type : String
  nullable : Bool := true
  description : String := ""
  is_primary_key : Bool := false
  display_name : Option String := none
deriving DecidableEq, Repr

/-- Table metadata as returned by `get_table_metadata`. -/
structure TableMetadata where
  description : String := ""
  columns : List ColumnMetadata
deriving DecidableEq, Repr

/-- An entry of a `search_schema` result: a name plus an optional score
(the code reads the score with `.get("score", 0.0)`). -/
structure SchemaResult where
  name : String
  score : Option ℚ := none
deriving DecidableEq

/-- An entry of a `search_table_heads` result. -/
structure HeadResult where
  column_name : String
  score : Option ℚ := none
deriving DecidableEq

/-- A recorded entity-to-column mapping inside a stored SQL pair
(the code reads the confidence with `.get("confidence", 0.7)`). -/
structure EntityMapping where
  entity_type : String
  table : String
  column : String
  confidence : Option ℚ := none
deriving DecidableEq

/-- A stored natural-language → SQL pair, of which the core only reads the
`entity_mappings` annotations. -/
structure SqlPair where
  entity_mappings : List EntityMapping
deriving DecidableEq

/-- The Metadata Provider (spec §6), modelled as a record of response
functions: `search_schema query table_filter top_k`,
`search_table_heads query table_name top_k` (`none` = provider default),
`find_similar_sql_pairs query top_k`, `get_table_metadata table_name`
(`none` = absent), and `get_relevant_columns table_name description`. -/
structure MetaStore where
  search_schema : String → Option String → Nat → List SchemaResult
  search_table_heads : String → String → Option Nat → List HeadResult
  find_similar_sql_pairs : String → Nat → List SqlPair
  get_table_metadata : String → Option TableMetadata
  get_relevant_columns : String → String → List ColumnMetadata

/-- An extracted entity of the decomposed query; each field is read with a
`.get(..., "")` default in the source. -/
structure Entity where
  entity_type : String := ""
  entity_value : PyVal := .str ""
  mapped_column : String := ""

/-- The temporal filter of a decomposed query: explicit date values and/or a
relative conditional statement, each read with a default
(`.get("value", [])`, `.get("conditional_statement", "")`). -/
structure TemporalFilter where
  value : PyVal := .list []
  conditional_statement : String := ""

/-- A produced filter specification. -/
structure FilterSpec where
  filter_name : String
  column_name : String
  operator : String
  value : PyVal

/-!
### SchemaMapper (`src/agents/context_agent/schema_mapper.py`)
-/

/-- Embedding of `SchemaMapper._search_column_metadata`: semantic search over column
metadata restricted to the table, top 3; the best hit's name and score
(the score read with `.get("score", 0.0)`). -/
def SchemaMapper._search_column_metadata (ms : MetaStore)
    (entity_type entity_value table_name : String) : Option (String × ℚ) :=
  let query := entity_type ++ " " ++ entity_value
  match ms.search_schema query (some table_name) 3 with
  | [] => none
  | c :: _ => some (c.name, c.score.getD 0)

/-- Embedding of `SchemaMapper._search_table_heads`: search sample row values, top 3;
the best hit's column name and score. -/
def SchemaMapper._search_table_heads (ms : MetaStore)
    (entity_value table_name : String) : Option (String × ℚ) :=
  match ms.search_table_heads entity_value table_name (some 3) with
  | [] => none
  | m :: _ => some (m.column_name, m.score.getD 0)

/-- Inner loop of `SchemaMapper._search_sql_pairs`: the first stored mapping
whose entity type and table both match, confidence read with
`.get("confidence", 0.7)`. -/
def SchemaMapper.findPairMapping (entity_type table_name : String) :
    List EntityMapping → Option (String × ℚ)
  | [] => none
  | m :: rest =>
    if m.entity_type = entity_type ∧ m.table = table_name then
      some (m.column, m.confidence.getD (7/10))
    else SchemaMapper.findPairMapping entity_type table_name rest

/-- Outer loop of `SchemaMapper._search_sql_pairs` over the retrieved pairs. -/
def SchemaMapper.findPairsMapping (entity_type table_name : String) :
    List SqlPair → Option (String × ℚ)
  | [] => none
  | p :: rest =>
    match SchemaMapper.findPairMapping entity_type table_name p.entity_mappings with
    | some r => some r
    | none => SchemaMapper.findPairsMapping entity_type table_name rest

/-- Embedding of `SchemaMapper._search_sql_pairs`: search prior SQL pairs (top 3) for a
recorded entity-to-column mapping for this entity type and table. -/
def SchemaMapper._search_sql_pairs (ms : MetaStore)
    (entity_type entity_value table_name : String) : Option (String × ℚ) :=
  let query := entity_type ++ " " ++ entity_value ++ " in " ++ table_name
  let similar_pairs := ms.find_similar_sql_pairs query 3
  SchemaMapper.findPairsMapping entity_type table_name similar_pairs

/-- The `pattern_map` of `SchemaMapper._heuristic_match`, with the unknown-type
fallback `[entity_type]` (the argument is already lowercased by the caller). -/
def SchemaMapper.pattern_map (entity_type : String) : List String :=
  if entity_type = "status" then ["status", "state"]
  else if entity_type = "priority" then ["priority", "importance", "urgency"]
  else if entity_type = "category" then ["category", "type", "class"]
  else if entity_type = "date" then ["date", "time", "created", "updated"]
  else if entity_type = "id" then ["id", "identifier", "key"]
  else if entity_type = "name" then ["name", "title"]
  else if entity_type = "description" then ["description", "details", "text"]
  else [entity_type]

/-- Scan of `_heuristic_match`: the first column whose lowercased name
contains one of the patterns, with fixed confidence 0.6. -/
def SchemaMapper.firstPatternColumn (patterns : List String) :
    List ColumnMetadata → Option (String × ℚ)
  | [] => none
  | c :: rest =>
    if patterns.any (fun pattern => containsSubstr c.name.toLower pattern) then
      some (c.name, 3/5)
    else SchemaMapper.firstPatternColumn patterns rest

/-- Embedding of `SchemaMapper._heuristic_match`: name-pattern scan over the table's
columns; `none` when the table has no metadata or nothing matches. -/
def SchemaMapper._heuristic_match (ms : MetaStore)
    (entity_type table_name : String) : Option (String × ℚ) :=
  match ms.get_table_metadata table_name with
  | none => none
  | some table_metadata =>
    let patterns := SchemaMapper.pattern_map entity_type.toLower
    SchemaMapper.firstPatternColumn patterns table_metadata.columns

/-- Python's `match and match[1] > bar`: keep an optional match only when its
score is strictly above `bar`. -/
def acceptAbove (m : Option (String × ℚ)) (bar : ℚ) : Option (String × ℚ) :=
  match m with
  | some x => if bar < x.2 then some x else none
  | none => none

/-- Embedding of `SchemaMapper.map_entity_to_column`: the five-stage resolution cascade.
Stage 1 accepts the column-metadata match above 0.7; stage 2 accepts the
sample-value match above 0.8; stage 3 accepts any recorded SQL-pair mapping;
stage 4 accepts the stage-1 match at any confidence; stage 5 accepts a
heuristic name-pattern match; otherwise `ValueError`. -/
def SchemaMapper.map_entity_to_column (ms : MetaStore)
    (entity_type entity_value table_name : String) : Except String (String × ℚ) :=
  let column_match := SchemaMapper._search_column_metadata ms entity_type entity_value table_name
  match acceptAbove column_match (7/10) with
  | some m => .ok m
  | none =>
    match acceptAbove (SchemaMapper._search_table_heads ms entity_value table_name) (8/10) with
    | some m => .ok m
    | none =>
      match SchemaMapper._search_sql_pairs ms entity_type entity_value table_name with
      | some m => .ok m
      | none =>
        match column_match with
        | some m => .ok m
        | none =>
          match SchemaMapper._heuristic_match ms entity_type table_name with
          | some m => .ok m
          | none =>
            .error ("Could not map entity " ++ entity_type ++ ":" ++ entity_value ++
              " to a column in " ++ table_name)

/-- The data-type substrings marking a date-bearing column. -/
def SchemaMapper.dateTypePatterns : List String := ["DATE", "TIME", "TIMESTAMP"]

/-- The column-name substrings marking a date-bearing column. -/
def SchemaMapper.dateNamePatterns : List String :=
  ["date", "time", "created", "updated", "timestamp"]

/-- First pass of `SchemaMapper.find_date_column`: the first column whose
uppercased data type contains `DATE`, `TIME` or `TIMESTAMP`. -/
def SchemaMapper.firstTypeDateColumn : List ColumnMetadata → Option String
  | [] => none
  | c :: rest =>
    if SchemaMapper.dateTypePatterns.any (fun dt => containsSubstr c.data_type.toUpper dt) then
      some c.name
    else SchemaMapper.firstTypeDateColumn rest

/-- Second pass of `SchemaMapper.find_date_column`: the first column whose
lowercased name contains a date-related pattern. -/
def SchemaMapper.firstNameDateColumn : List ColumnMetadata → Option String
  | [] => none
  | c :: rest =>
    if SchemaMapper.dateNamePatterns.any (fun pattern => containsSubstr c.name.toLower pattern) then
      some c.name
    else SchemaMapper.firstNameDateColumn rest

/-- Embedding of `SchemaMapper.find_date_column`: all columns are scanned for a date-like
data type first; only if none matches, a second scan looks at name patterns. -/
def SchemaMapper.find_date_column (ms : MetaStore) (table_name : String) : Option String :=
  match ms.get_table_metadata table_name with
  | none => none
  | some table_metadata =>
    match SchemaMapper.firstTypeDateColumn table_metadata.columns with
    | some c => some c
    | none => SchemaMapper.firstNameDateColumn table_metadata.columns

/-!
### FilterBuilder (`src/agents/context_agent/filter_builder.py`)
-/

/-- The only uncaught Python exception in filter building: the `parts[1]`
index error in BETWEEN range splitting. -/
inductive PyErr where
  | indexError
deriving DecidableEq

/-- The `operator_map` of `FilterBuilder._determine_operator`. -/
def FilterBuilder.operator_map : List (String × String) :=
  [("status", "="), ("priority", "="), ("category", "="), ("type", "="),
   ("count", ">"), ("amount", ">"), ("limit", "<="), ("threshold", ">=")]

/-- Embedding of `FilterBuilder._determine_operator`: negation prefixes on a string value
give `!=`; comparison prefixes give `>`, `<`, `>=`, `<=`; otherwise the
entity-type map (on the lowercased type) with default `=`. -/
def FilterBuilder._determine_operator (entity_type : String) (entity_value : PyVal) : String :=
  match entity_value with
  | .str s =>
    if s.toLower.startsWith "not " || s.toLower.startsWith "isn\x27t " ||
        s.toLower.startsWith "is not " || s.toLower.startsWith "doesn\x27t " ||
        s.toLower.startsWith "does not " then "!="
    else if s.toLower.startsWith "greater than" || s.toLower.startsWith "more than" ||
        s.toLower.startsWith "over" then ">"
    else if s.toLower.startsWith "less than" || s.toLower.startsWith "under" ||
        s.toLower.startsWith "below" then "<"
    else if s.toLower.startsWith "at least" || s.toLower.startsWith "minimum" then ">="
    else if s.toLower.startsWith "at most" || s.toLower.startsWith "maximum" then "<="
    else (List.lookup entity_type.toLower FilterBuilder.operator_map).getD "="
  | _ => (List.lookup entity_type.toLower FilterBuilder.operator_map).getD "="

/-- The comparison words whose presence triggers numeric extraction in
`_process_filter_value`. -/
def FilterBuilder.comparison_words : List String :=
  ["than", "least", "most", "minimum", "maximum"]

/-- The negation prefixes stripped by `_process_filter_value`. -/
def FilterBuilder.negation_list : List String :=
  ["not ", "isn\x27t ", "is not ", "doesn\x27t ", "does not "]

/-- The negation-stripping loop of `_process_filter_value`: the first matching
prefix (tested on the lowercased string) is dropped from the original string
and the remainder stripped; with no match the string is returned unchanged. -/
def FilterBuilder.stripNegationAux (s : String) : List String → String
  | [] => s
  | p :: rest =>
    if s.toLower.startsWith p then (s.drop p.length).trim
    else FilterBuilder.stripNegationAux s rest

/-- Embedding of `FilterBuilder._process_filter_value`.  For scalar comparison operators a
string holding a comparison word has its first embedded number extracted,
else a negation prefix is stripped.  For `BETWEEN` a two-element list passes
through; a string is split on `" to "` (membership tested on the lowercased
string, the split performed on the original — `parts[1]` raises `IndexError`
when the separator only occurs in another casing) or on `" - "`.  For `IN` a
list passes through, a comma-separated string is split and stripped, and a
scalar is wrapped. -/
def FilterBuilder._process_filter_value (value : PyVal) (operator : String) :
    Except PyErr PyVal :=
  if operator = "=" || operator = "!=" || operator = "<" || operator = ">" ||
      operator = "<=" || operator = ">=" then
    match value with
    | .str s =>
      match (if FilterBuilder.comparison_words.any (fun w => containsSubstr s.toLower w) then
              findNumbers s else []) with
      | n :: _ => .ok (.int (Int.ofNat n))
      | [] => .ok (.str (FilterBuilder.stripNegationAux s FilterBuilder.negation_list))
    | v => .ok v
  else if operator = "BETWEEN" then
    match value with
    | .list l => .ok (.list l)
    | .str s =>
      if containsSubstr s.toLower " to " then
        match splitOnce s " to " with
        | [p0, p1] => .ok (.list [.str p0.trim, .str p1.trim])
        | _ => .error .indexError
      else if containsSubstr s " - " then
        match splitOnce s " - " with
        | [p0, p1] => .ok (.list [.str p0.trim, .str p1.trim])
        | _ => .error .indexError
      else .ok (.str s)
    | v => .ok v
  else if operator = "IN" then
    match value with
    | .list l => .ok (.list l)
    | .str s =>
      if containsSubstr s "," then .ok (.list ((s.splitOn ",").map (fun x => .str x.trim)))
      else .ok (.list [.str s])
    | v => .ok (.list [v])
  else .ok value

/-- Embedding of `FilterBuilder._resolve_temporal_expression` relative to `today`:
the fixed expression table, with any unrecognized expression defaulting to
the last 30 days. -/
def FilterBuilder._resolve_temporal_expression (today : Date) (expression : String) :
    List String :=
  let e := expression.toLower
  if e = "today" then [today.isoformat]
  else if e = "yesterday" then [(today.subDays 1).isoformat]
  else if e = "last week" then [(today.subDays 7).isoformat, today.isoformat]
  else if e = "last month" then [(today.subDays 30).isoformat, today.isoformat]
  else if e = "this year" then [(Date.mk today.year 1 1).isoformat, today.isoformat]
  else if e = "last year" then
    [(Date.mk (today.year - 1) 1 1).isoformat, (Date.mk (today.year - 1) 12 31).isoformat]
  else [(today.subDays 30).isoformat, today.isoformat]

/-- Embedding of `FilterBuilder._build_temporal_filter`: locate a date column, resolve the
conditional statement when no explicit values are present, then derive the
operator from the shape of the values (a two-element list gives `BETWEEN`, a
string or one-element list gives `=` on the single value, anything else
gives `>`). -/
def FilterBuilder._build_temporal_filter (ms : MetaStore) (today : Date)
    (temporal_filter : Option TemporalFilter) (table_name : String) : Option FilterSpec :=
  match temporal_filter with
  | none => none
  | some tf =>
    match SchemaMapper.find_date_column ms table_name with
    | none => none
    | some date_column =>
      let values := tf.value
      let values :=
        if pyFalsy values ∧ tf.conditional_statement ≠ "" then
          PyVal.list ((FilterBuilder._resolve_temporal_expression today
            tf.conditional_statement).map PyVal.str)
        else values
      match values with
      | .list [a, b] => some ⟨"date_range", date_column, "BETWEEN", .list [a, b]⟩
      | .list [a] => some ⟨"date_range", date_column, "=", a⟩
      | .str s => some ⟨"date_range", date_column, "=", .str s⟩
      | v => some ⟨"date_range", date_column, ">", v⟩

/-- Embedding of `FilterBuilder._build_entity_filter`: skip an entity with a missing type
or falsy value; resolve the column through the cascade when not pre-mapped,
treating a `ValueError` (`UnresolvableEntity`) as "drop this filter"
(`.ok none`); the `IndexError` of value processing is not a `ValueError` and
propagates. -/
def FilterBuilder._build_entity_filter (ms : MetaStore) (entity : Entity)
    (table_name : String) : Except PyErr (Option FilterSpec) :=
  if entity.entity_type = "" || pyFalsy entity.entity_value then .ok none
  else
    match (if entity.mapped_column = "" then
            (SchemaMapper.map_entity_to_column ms entity.entity_type
              (pyStr entity.entity_value) table_name).map Prod.fst
          else .ok entity.mapped_column) with
    | .error _ => .ok none
    | .ok mapped_column =>
      let operator := FilterBuilder._determine_operator entity.entity_type entity.entity_value
      match FilterBuilder._process_filter_value entity.entity_value operator with
      | .error e => .error e
      | .ok processed_value =>
        .ok (some ⟨entity.entity_type, mapped_column, operator, processed_value⟩)

/-- The entity loop of `FilterBuilder.build_filters`: build each entity's
filter in order, appending only the non-`None` results. -/
def FilterBuilder.entityFilters (ms : MetaStore) (table_name : String) :
    List Entity → Except PyErr (List FilterSpec)
  | [] => .ok []
  | e :: rest =>
    match FilterBuilder._build_entity_filter ms e table_name with
    | .error err => .error err
    | .ok none => FilterBuilder.entityFilters ms table_name rest
    | .ok (some fs) =>
      match FilterBuilder.entityFilters ms table_name rest with
      | .error err => .error err
      | .ok others => .ok (fs :: others)

/-- Embedding of `FilterBuilder.build_filters`: entity filters in order, then the temporal
filter when one is produced. -/
def FilterBuilder.build_filters (ms : MetaStore) (today : Date)
    (entities : List Entity) (temporal_filter : Option TemporalFilter)
    (table_name : String) : Except PyErr (List FilterSpec) :=
  match FilterBuilder.entityFilters ms table_name entities with
  | .error err => .error err
  | .ok filters =>
    match FilterBuilder._build_temporal_filter ms today temporal_filter table_name with
    | some date_filter => .ok (filters ++ [date_filter])
    | none => .ok filters

/-!
### ContextEnricher (`src/agents/context_agent/context_enricher.py`)
-/

/-- The `context` sub-dictionary of the contextual data (always carries both
keys, so it is never falsy in validation). -/
structure ContextInfo where
  description : String
  expected_output : String
deriving DecidableEq

/-- The decomposed query consumed by `enrich_query` (the content of the
`query_decomposition` key; every field is read with a default). -/
structure DecomposedQuery where
  intent_goal : String := ""
  entity_extraction : List Entity := []
  temporal_filtering : Option TemporalFilter := none
  context_description : String := ""
  context_expected_output : String := ""

/-- The distinct `ValueError` raise sites of the enrichment pipeline. -/
inductive CtxError where
  | noRelevantTable
  | noTableMetadata (table : String)
  | couldNotMapEntity (entity_type entity_value : String)
  | missingField (field : String)
  | missingPrimaryTable
  | noOutputColumns
deriving DecidableEq

/-- The errors the spec groups as `IncompleteContext`: the ones raised by
`_validate_contextual_data`. -/
def CtxError.isIncompleteContext : CtxError → Bool
  | .missingField _ => true
  | .missingPrimaryTable => true
  | .noOutputColumns => true
  | _ => false

/-- The `table_metadata` entry of the contextual data (a dictionary with
three keys, hence never falsy in validation). -/
structure TableMetaOut where
  primary_table : String
  table_description : String
  table_fields : List (String × String)
deriving DecidableEq

/-- The nested `column_fields` entry of an output column. -/
structure ColumnFields where
  data_type : String
  nullable : Bool
deriving DecidableEq

/-- A formatted output column of the contextual data. -/
structure OutputColumn where
  column_name : String
  alias_name : String  -- the Python key is `alias` (a reserved word here)
  column_description : String
  column_fields : ColumnFields
deriving DecidableEq

/-- The contextual data assembled by `enrich_query`. -/
structure ContextualData where
  intent : String
  context : ContextInfo
  table_metadata : TableMetaOut
  filters : List FilterSpec
  output_columns : List OutputColumn

/-- Embedding of `ContextEnricher._initialize_contextual_data`: the intent goal and the
context description / expected output. -/
def ContextEnricher._initialize_contextual_data (dq : DecomposedQuery) :
    String × ContextInfo :=
  (dq.intent_goal, ⟨dq.context_description, dq.context_expected_output⟩)

/-- Embedding of `ContextEnricher._determine_primary_table`: semantic search with the
intent goal followed by every entity type and value, top 3; `ValueError`
when the search returns nothing, otherwise the highest-ranked table. -/
def ContextEnricher._determine_primary_table (ms : MetaStore) (dq : DecomposedQuery) :
    Except CtxError String :=
  let intent := dq.intent_goal
  let entities := (dq.entity_extraction.map
    (fun e => [e.entity_type, pyStr e.entity_value])).flatten
  let search_query := intent ++ " " ++ String.intercalate " " entities
  match ms.search_schema search_query none 3 with
  | [] => .error .noRelevantTable
  | t :: _ => .ok t.name

/-- Python dictionary insertion used to build `table_fields`: a later column
with an already-present name overwrites, a fresh name is appended. -/
def dictSet (d : List (String × String)) (k v : String) : List (String × String) :=
  if d.any (fun p => p.1 = k) then
    d.map (fun p => if p.1 = k then (k, v) else p)
  else d ++ [(k, v)]

/-- The `table_fields` dictionary: each column's name mapped to its type. -/
def buildTableFields (columns : List ColumnMetadata) : List (String × String) :=
  columns.foldl (fun d c => dictSet d c.name c.data_type) []

/-- Embedding of `ContextEnricher._get_table_metadata`: `ValueError` when the table has no
metadata, otherwise the primary-table record with its fields dictionary. -/
def ContextEnricher._get_table_metadata (ms : MetaStore) (table_name : String) :
    Except CtxError TableMetaOut :=
  match ms.get_table_metadata table_name with
  | none => .error (.noTableMetadata table_name)
  | some table_metadata =>
    .ok ⟨table_name, table_metadata.description, buildTableFields table_metadata.columns⟩

/-- Embedding of `ContextEnricher._map_entity_to_column` (distinct from the SchemaMapper
cascade): schema search restricted to the table, top 3; on an empty result a
table-heads search (provider-default `top_k`) whose first hit is used when
its column name is truthy; otherwise `ValueError`. -/
def ContextEnricher._map_entity_to_column (ms : MetaStore)
    (entity_type entity_value table_name : String) : Except CtxError String :=
  let query := entity_type ++ " " ++ entity_value
  match ms.search_schema query (some table_name) 3 with
  | [] =>
    match ms.search_table_heads entity_value table_name none with
    | m :: _ =>
      if m.column_name ≠ "" then .ok m.column_name
      else .error (.couldNotMapEntity entity_type entity_value)
    | [] => .error (.couldNotMapEntity entity_type entity_value)
  | c :: _ => .ok c.name

/-- The `operator_map` of `ContextEnricher._determine_operator` (it has no
`threshold` entry and is keyed on the exact entity type). -/
def ContextEnricher.operator_map : List (String × String) :=
  [("status", "="), ("priority", "="), ("category", "="), ("type", "="),
   ("count", ">"), ("amount", ">"), ("limit", "<=")]

/-- Embedding of `ContextEnricher._determine_operator`: only the static type map, with
default `=` (the value is unused). -/
def ContextEnricher._determine_operator (entity_type : String) (_entity_value : PyVal) :
    String :=
  (List.lookup entity_type ContextEnricher.operator_map).getD "="

/-- Embedding of `ContextEnricher._find_date_column`: one pass over the columns appending
on a date-like data type, or else (`elif`) on a date-like name; the first
collected column is returned.  A name-pattern column earlier in the list is
therefore returned even when a type-matched column occurs later. -/
def ContextEnricher._find_date_column (ms : MetaStore) (table_name : String) :
    Option String :=
  match ms.get_table_metadata table_name with
  | none => none
  | some table_metadata =>
    let date_columns := table_metadata.columns.filterMap (fun c =>
      if SchemaMapper.dateTypePatterns.any (fun dt => containsSubstr c.data_type.toUpper dt) then
        some c.name
      else if SchemaMapper.dateNamePatterns.any
          (fun pattern => containsSubstr c.name.toLower pattern) then
        some c.name
      else none)
    date_columns.head?

/-- The entity loop of `ContextEnricher._build_filters`: each entity's column
comes from its pre-supplied `mapped_column` when truthy, otherwise from
`_map_entity_to_column`, whose `ValueError` is NOT caught here and aborts
the whole enrichment. -/
def ContextEnricher.entityFilters (ms : MetaStore) (table_name : String) :
    List Entity → Except CtxError (List FilterSpec)
  | [] => .ok []
  | entity :: rest =>
    match (if entity.mapped_column = "" then
            ContextEnricher._map_entity_to_column ms entity.entity_type
              (pyStr entity.entity_value) table_name
          else .ok entity.mapped_column) with
    | .error e => .error e
    | .ok mapped_column =>
      let operator := ContextEnricher._determine_operator entity.entity_type entity.entity_value
      match ContextEnricher.entityFilters ms table_name rest with
      | .error e => .error e
      | .ok others =>
        .ok (⟨entity.entity_type, mapped_column, operator, entity.entity_value⟩ :: others)

/-- Embedding of `ContextEnricher._build_filters`: entity filters in order, then — when a
temporal filter is present and a date column is found — a hard-coded
`BETWEEN` filter on the temporal filter's explicit `value`. -/
def ContextEnricher._build_filters (ms : MetaStore) (dq : DecomposedQuery)
    (table_name : String) : Except CtxError (List FilterSpec) :=
  match ContextEnricher.entityFilters ms table_name dq.entity_extraction with
  | .error e => .error e
  | .ok filters =>
    match dq.temporal_filtering with
    | some temporal =>
      match ContextEnricher._find_date_column ms table_name with
      | some date_column =>
        .ok (filters ++ [⟨"date_range", date_column, "BETWEEN", temporal.value⟩])
      | none => .ok filters
    | none => .ok filters

/-- Embedding of `ContextEnricher._format_column_name`: underscores to spaces, then
`str.title()`. -/
def ContextEnricher._format_column_name (column_name : String) : String :=
  titleCase (column_name.replace "_" " ")

/-- Embedding of `ContextEnricher._get_key_columns`: the columns that are primary keys or
whose lowercased name contains `id`, formatted for output (the alias always
derived from the name here, ignoring `display_name`). -/
def ContextEnricher._get_key_columns (table_metadata : TableMetadata) :
    List OutputColumn :=
  (table_metadata.columns.filter
      (fun c => c.is_primary_key || containsSubstr c.name.toLower "id")).map
    (fun c => ⟨c.name, ContextEnricher._format_column_name c.name, c.description,
      ⟨c.data_type, c.nullable⟩⟩)

/-- Embedding of `ContextEnricher._determine_output_columns`: `ValueError` without table
metadata; key columns only for a `count_`/`aggregate_` intent; otherwise the
provider's relevant columns (falling back to all columns when that search
is empty), formatted with the display-name default. -/
def ContextEnricher._determine_output_columns (ms : MetaStore) (dq : DecomposedQuery)
    (table_name : String) : Except CtxError (List OutputColumn) :=
  let intent := dq.intent_goal
  let expected_output := dq.context_expected_output
  match ms.get_table_metadata table_name with
  | none => .error (.noTableMetadata table_name)
  | some table_metadata =>
    if intent.startsWith "count_" || intent.startsWith "aggregate_" then
      .ok (ContextEnricher._get_key_columns table_metadata)
    else
      let relevant_columns := ms.get_relevant_columns table_name expected_output
      let relevant_columns :=
        if relevant_columns.isEmpty then table_metadata.columns else relevant_columns
      .ok (relevant_columns.map (fun c =>
        ⟨c.name, (c.display_name).getD (ContextEnricher._format_column_name c.name),
          c.description, ⟨c.data_type, c.nullable⟩⟩))

/-- Embedding of `ContextEnricher._validate_contextual_data`, with the required-field loop
in source order.  The `context` and `table_metadata` entries are dictionaries
that always carry keys, so their truthiness checks never fail. -/
def ContextEnricher._validate_contextual_data (cd : ContextualData) :
    Except CtxError Unit :=
  if cd.intent = "" then .error (.missingField "intent")
  else if cd.filters.isEmpty then .error (.missingField "filters")
  else if cd.output_columns.isEmpty then .error (.missingField "output_columns")
  else if cd.table_metadata.primary_table = "" then .error .missingPrimaryTable
  else if cd.output_columns.isEmpty then .error .noOutputColumns
  else .ok ()

/-- Embedding of `ContextEnricher.enrich_query`: initialize, pick the primary table, fetch
its metadata, build filters, pick output columns, validate, and return the
assembled record. -/
def ContextEnricher.enrich_query (ms : MetaStore) (dq : DecomposedQuery) :
    Except CtxError ContextualData :=
  let init := ContextEnricher._initialize_contextual_data dq
  match ContextEnricher._determine_primary_table ms dq with
  | .error e => .error e
  | .ok primary_table =>
    match ContextEnricher._get_table_metadata ms primary_table with
    | .error e => .error e
    | .ok table_metadata =>
      match ContextEnricher._build_filters ms dq primary_table with
      | .error e => .error e
      | .ok filters =>
        match ContextEnricher._determine_output_columns ms dq primary_table with
        | .error e => .error e
        | .ok output_columns =>
          let cd : ContextualData := ⟨init.1, init.2, table_metadata, filters, output_columns⟩
          match ContextEnricher._validate_contextual_data cd with
          | .error e => .error e
          | .ok _ => .ok cd

/-!
### Specification model (§4.2 operator selection) and verification fixtures
-/

/-- Spec §4.2 step (a): the lexical negation prefixes. -/
def specNegationMarks : List String :=
  ["not ", "isn\x27t ", "is not ", "doesn\x27t ", "does not "]

/-- Spec §4.2 step (b): the comparison-phrase groups in spec order. -/
def specComparisonTable : List (List String × String) :=
  [(["greater than", "more than", "over"], ">"),
   (["less than", "under", "below"], "<"),
   (["at least", "minimum"], ">="),
   (["at most", "maximum"], "<=")]

/-- Spec §4.2 step (c): the static entity-type table. -/
def specTypeTable : List (String × String) :=
  [("status", "="), ("priority", "="), ("category", "="), ("type", "="),
   ("count", ">"), ("amount", ">"), ("limit", "<="), ("threshold", ">=")]

/-- The first comparison-phrase group one of whose prefixes matches, in
table order. -/
def firstGroupOperator (l : String) : List (List String × String) → Option String
  | [] => none
  | g :: rest =>
    if g.1.any (fun p => l.startsWith p) then some g.2 else firstGroupOperator l rest

/-- Modelled from the spec's words (§4.2, operator selection on a string
value): (a) negation prefixes give `!=`; (b) the first comparison-phrase
group with a matching prefix gives its operator; (c) the static type table;
(d) default `=`. -/
def specOperatorSelection (entity_type : String) (value : String) : String :=
  if specNegationMarks.any (fun p => value.toLower.startsWith p) then "!="
  else
    match firstGroupOperator value.toLower specComparisonTable with
    | some op => op
    | none => (List.lookup entity_type.toLower specTypeTable).getD "="

/-!
### Concrete fixtures used by witnesses and counterexamples
-/

def ordersColumns : List ColumnMetadata :=
  [⟨"order_id", "INTEGER", false, "", true, none⟩,
   ⟨"status", "VARCHAR", true, "", false, none⟩,
   ⟨"created_at", "TIMESTAMP", true, "", false, none⟩,
   ⟨"amount", "NUMERIC", true, "", false, none⟩]

def ordersTable : TableMetadata := ⟨"orders table", ordersColumns⟩

def msGood : MetaStore :=
  ⟨fun _ f _ => if f = none then [⟨"orders", some (9/10)⟩] else [⟨"status", some (8/10)⟩],
   fun _ _ _ => [],
   fun _ _ => [],
   fun t => if t = "orders" then some ordersTable else none,
   fun _ _ => []⟩

def dqGood : DecomposedQuery :=
  { intent_goal := "retrieve_orders",
    entity_extraction := [{entity_type := "status", entity_value := .str "open"}],
    temporal_filtering := some {conditional_statement := "last month"},
    context_expected_output := "order details" }

def dqEmpty : DecomposedQuery :=
  { intent_goal := "retrieve_orders", context_expected_output := "order details" }

def dqGhost : DecomposedQuery :=
  { intent_goal := "retrieve_orders",
    entity_extraction := [⟨"status", .str "open", "ghost"⟩],
    context_expected_output := "order details" }

def dqCount : DecomposedQuery :=
  { intent_goal := "count_orders",
    entity_extraction := [⟨"status", .str "open", ""⟩],
    context_expected_output := "total" }

def ordersOutputColumns : List OutputColumn :=
  [⟨"order_id", "Order Id", "", ⟨"INTEGER", false⟩⟩,
   ⟨"status", "Status", "", ⟨"VARCHAR", true⟩⟩,
   ⟨"created_at", "Created At", "", ⟨"TIMESTAMP", true⟩⟩,
   ⟨"amount", "Amount", "", ⟨"NUMERIC", true⟩⟩]

def cdGhost : ContextualData :=
  ⟨"retrieve_orders", ⟨"", "order details"⟩,
   ⟨"orders", "orders table", buildTableFields ordersColumns⟩,
   [⟨"status", "ghost", "=", .str "open"⟩],
   ordersOutputColumns⟩

def cdGood : ContextualData :=
  ⟨"retrieve_orders", ⟨"", "order details"⟩,
   ⟨"orders", "orders table", buildTableFields ordersColumns⟩,
   [⟨"status", "status", "=", .str "open"⟩,
    ⟨"date_range", "created_at", "BETWEEN", .list []⟩],
   ordersOutputColumns⟩

def cdCount : ContextualData :=
  ⟨"count_orders", ⟨"", "total"⟩,
   ⟨"orders", "orders table", buildTableFields ordersColumns⟩,
   [⟨"status", "status", "=", .str "open"⟩],
   [⟨"order_id", "Order Id", "", ⟨"INTEGER", false⟩⟩]⟩

def msCascade : MetaStore :=
  ⟨fun _ _ _ => [⟨"status", some (7/10)⟩],
   fun _ _ _ => [⟨"st_sample", some (9/10)⟩],
   fun _ _ => [], fun _ => none, fun _ _ => []⟩

def msWeak : MetaStore :=
  ⟨fun _ _ _ => [⟨"status", some (1/2)⟩],
   fun _ _ _ => [⟨"st_sample", some (8/10)⟩],
   fun _ _ => [], fun _ => some ordersTable, fun _ _ => []⟩

def mixedColumns : List ColumnMetadata :=
  [⟨"created_flag", "BOOLEAN", true, "", false, none⟩,
   ⟨"ts", "DATE", true, "", false, none⟩]

def mixedTable : TableMetadata := ⟨"", mixedColumns⟩

def msMixed : MetaStore :=
  ⟨fun _ _ _ => [], fun _ _ _ => [], fun _ _ => [],
   fun t => if t = "events" then some mixedTable else none, fun _ _ => []⟩

def msNoColumns : MetaStore :=
  ⟨fun _ f _ => if f = none then [⟨"orders", some (9/10)⟩] else [],
   fun _ _ _ => [], fun _ _ => [],
   fun t => if t = "orders" then some ordersTable else none,
   fun _ _ => []⟩

def regionEntity : Entity := ⟨"region", .str "emea", ""⟩

def premappedEntity : Entity := ⟨"status", .str "open", "status"⟩

/-!
### Helper lemmas
-/

/-- Evaluation of the negation-mark scan over its fixed list. -/
lemma specNegationMarks_any (l : String) :
    specNegationMarks.any (fun p => l.startsWith p) =
      (l.startsWith "not " || (l.startsWith "isn\x27t " || (l.startsWith "is not " ||
        (l.startsWith "doesn\x27t " || (l.startsWith "does not " || false))))) := rfl

/-- Evaluation of the group scan over the fixed comparison table. -/
lemma firstGroupOperator_eval (l : String) :
    firstGroupOperator l specComparisonTable =
      (if l.startsWith "greater than" || (l.startsWith "more than" ||
          (l.startsWith "over" || false)) then some ">"
       else if l.startsWith "less than" || (l.startsWith "under" ||
          (l.startsWith "below" || false)) then some "<"
       else if l.startsWith "at least" || (l.startsWith "minimum" || false) then some ">="
       else if l.startsWith "at most" || (l.startsWith "maximum" || false) then some "<="
       else none) := rfl

/-- Validation success forces the four requirements that can actually fail. -/
lemma validate_ok_fields {cd : ContextualData}
    (h : ContextEnricher._validate_contextual_data cd = .ok ()) :
    cd.intent ≠ "" ∧ cd.filters ≠ [] ∧ cd.output_columns ≠ [] ∧
      cd.table_metadata.primary_table ≠ "" := by
  unfold ContextEnricher._validate_contextual_data at h
  split_ifs at h with h1 h2 h3 h4 <;>
    first
      | exact Except.noConfusion h
      | exact ⟨h1, by simpa using h2, by simpa using h3, h4⟩

/-- Inversion of a successful enrichment into its pipeline steps. -/
lemma enrich_query_ok_elim {ms : MetaStore} {dq : DecomposedQuery} {cd : ContextualData}
    (h : ContextEnricher.enrich_query ms dq = .ok cd) :
    ∃ pt tmo fs oc,
      ContextEnricher._determine_primary_table ms dq = .ok pt ∧
      ContextEnricher._get_table_metadata ms pt = .ok tmo ∧
      ContextEnricher._build_filters ms dq pt = .ok fs ∧
      ContextEnricher._determine_output_columns ms dq pt = .ok oc ∧
      ContextEnricher._validate_contextual_data cd = .ok () ∧
      cd = ⟨dq.intent_goal, ⟨dq.context_description, dq.context_expected_output⟩,
        tmo, fs, oc⟩ := by
  simp only [ContextEnricher.enrich_query, ContextEnricher._initialize_contextual_data] at h
  split at h
  · exact Except.noConfusion h
  next pt hpt =>
    split at h
    · exact Except.noConfusion h
    next tmo htmo =>
      split at h
      · exact Except.noConfusion h
      next fs hfs =>
        split at h
        · exact Except.noConfusion h
        next oc hoc =>
          split at h
          · exact Except.noConfusion h
          next u hval =>
            cases h
            exact ⟨pt, tmo, fs, oc, hpt, htmo, hfs, hoc, by cases u; exact hval, rfl⟩

/-- The primary-table field of the metadata record is the requested table. -/
lemma get_table_metadata_primary {ms : MetaStore} {pt : String} {tmo : TableMetaOut}
    (h : ContextEnricher._get_table_metadata ms pt = .ok tmo) :
    tmo.primary_table = pt := by
  unfold ContextEnricher._get_table_metadata at h
  split at h
  · exact Except.noConfusion h
  · cases h; rfl

/-- A column delivered by `ContextEnricher._map_entity_to_column` is the head
of a schema-search result or of a table-heads result. -/
lemma ce_map_entity_mem {ms : MetaStore} {et ev tn c : String}
    (h : ContextEnricher._map_entity_to_column ms et ev tn = .ok c) :
    (∃ r ∈ ms.search_schema (et ++ " " ++ ev) (some tn) 3, r.name = c) ∨
    (∃ m ∈ ms.search_table_heads ev tn none, m.column_name = c) := by
  unfold ContextEnricher._map_entity_to_column at h
  dsimp only at h
  rcases hss : ms.search_schema (et ++ " " ++ ev) (some tn) 3 with _ | ⟨r, rest⟩
  · rw [hss] at h
    dsimp only at h
    rcases hth : ms.search_table_heads ev tn none with _ | ⟨m, mrest⟩
    · rw [hth] at h
      exact Except.noConfusion h
    · rw [hth] at h
      dsimp only at h
      by_cases hcn : m.column_name ≠ ""
      · rw [if_pos hcn] at h
        exact Or.inr ⟨m, hth ▸ List.mem_cons_self m mrest, Except.ok.inj h⟩
      · rw [if_neg hcn] at h
        exact Except.noConfusion h
  · rw [hss] at h
    dsimp only at h
    exact Or.inl ⟨r, hss ▸ List.mem_cons_self r rest, Except.ok.inj h⟩

/-- The date column of `ContextEnricher._find_date_column` names a column of
the table's metadata. -/
lemma ce_find_date_column_mem {ms : MetaStore} {tn dc : String} {tm : TableMetadata}
    (h : ContextEnricher._find_date_column ms tn = some dc)
    (htm : ms.get_table_metadata tn = some tm) :
    dc ∈ tm.columns.map (fun c => c.name) := by
  unfold ContextEnricher._find_date_column at h
  rw [htm] at h
  simp only at h
  have hmem := List.mem_of_mem_head? h
  obtain ⟨c, hc, hfc⟩ := List.mem_filterMap.mp hmem
  have : dc = c.name := by
    by_cases h1 : (SchemaMapper.dateTypePatterns.any
        (fun dt => containsSubstr c.data_type.toUpper dt)) = true
    · rw [if_pos h1] at hfc; exact (Option.some.inj hfc).symm
    · rw [if_neg h1] at hfc
      by_cases h2 : (SchemaMapper.dateNamePatterns.any
          (fun pattern => containsSubstr c.name.toLower pattern)) = true
      · rw [if_pos h2] at hfc; exact (Option.some.inj hfc).symm
      · rw [if_neg h2] at hfc; exact Option.noConfusion hfc
  rw [this]
  exact List.mem_map.mpr ⟨c, hc, rfl⟩

/-- Every filter produced by the enricher's entity loop carries a column that
comes from a pre-supplied mapping, a schema-search result, or a table-heads
result. -/
lemma entityFilters_columns {ms : MetaStore} {tn : String} {names : List String} :
    ∀ {entities : List Entity} {fs : List FilterSpec},
    ContextEnricher.entityFilters ms tn entities = .ok fs →
    (∀ e ∈ entities, e.mapped_column ≠ "" → e.mapped_column ∈ names) →
    (∀ q k r, r ∈ ms.search_schema q (some tn) k → r.name ∈ names) →
    (∀ q k m, m ∈ ms.search_table_heads q tn k → m.column_name ∈ names) →
    ∀ f ∈ fs, f.column_name ∈ names := by
  intro entities
  induction entities with
  | nil =>
    intro fs h _ _ _ f hf
    unfold ContextEnricher.entityFilters at h
    cases h
    exact absurd hf (List.not_mem_nil f)
  | cons e rest ih =>
    intro fs h hmapped hschema hheads f hf
    unfold ContextEnricher.entityFilters at h
    split at h
    · exact Except.noConfusion h
    next mapped hmap =>
      split at h
      · exact Except.noConfusion h
      next others hothers =>
        cases h
        rcases List.mem_cons.mp hf with rfl | hmem
        · by_cases hm : e.mapped_column = ""
          · rw [if_pos hm] at hmap
            rcases ce_map_entity_mem hmap with ⟨r, hr, hrn⟩ | ⟨m, hmm, hmn⟩
            · exact hrn ▸ hschema _ 3 r hr
            · exact hmn ▸ hheads _ none m hmm
          · rw [if_neg hm] at hmap
            cases hmap
            exact hmapped e (List.mem_cons_self e rest) hm
        · exact ih hothers (fun e' he' hm' => hmapped e' (List.mem_cons_of_mem e he') hm')
            hschema hheads f hmem

/-- Every key column produced by `_get_key_columns` is a primary-key or
`id`-named column of the table. -/
lemma key_columns_property {tm : TableMetadata} :
    ∀ oc ∈ ContextEnricher._get_key_columns tm, ∃ c ∈ tm.columns,
      oc.column_name = c.name ∧
      (c.is_primary_key || containsSubstr c.name.toLower "id") = true := by
  intro oc hoc
  unfold ContextEnricher._get_key_columns at hoc
  obtain ⟨c, hc, rfl⟩ := List.mem_map.mp hoc
  obtain ⟨hcm, hcp⟩ := List.mem_filter.mp hc
  exact ⟨c, hcm, rfl, hcp⟩

/-- The primary-table search does not read `get_relevant_columns`. -/
lemma primary_table_grc (ms : MetaStore) (g : String → String → List ColumnMetadata)
    (dq : DecomposedQuery) :
    ContextEnricher._determine_primary_table { ms with get_relevant_columns := g } dq =
      ContextEnricher._determine_primary_table ms dq := rfl

/-- The metadata fetch does not read `get_relevant_columns`. -/
lemma table_metadata_grc (ms : MetaStore) (g : String → String → List ColumnMetadata)
    (tn : String) :
    ContextEnricher._get_table_metadata { ms with get_relevant_columns := g } tn =
      ContextEnricher._get_table_metadata ms tn := rfl

/-- Entity-to-column mapping does not read `get_relevant_columns`. -/
lemma map_entity_grc (ms : MetaStore) (g : String → String → List ColumnMetadata)
    (et ev tn : String) :
    ContextEnricher._map_entity_to_column { ms with get_relevant_columns := g } et ev tn =
      ContextEnricher._map_entity_to_column ms et ev tn := rfl

/-- Date-column lookup does not read `get_relevant_columns`. -/
lemma find_date_grc (ms : MetaStore) (g : String → String → List ColumnMetadata)
    (tn : String) :
    ContextEnricher._find_date_column { ms with get_relevant_columns := g } tn =
      ContextEnricher._find_date_column ms tn := rfl

/-- The entity-filter loop does not read `get_relevant_columns`. -/
lemma entityFilters_grc (ms : MetaStore) (g : String → String → List ColumnMetadata)
    (tn : String) : ∀ l,
    ContextEnricher.entityFilters { ms with get_relevant_columns := g } tn l =
      ContextEnricher.entityFilters ms tn l := by
  intro l
  induction l with
  | nil => rfl
  | cons e rest ih =>
    simp only [ContextEnricher.entityFilters, map_entity_grc, ih]

/-- Filter building does not read `get_relevant_columns`. -/
lemma build_filters_grc (ms : MetaStore) (g : String → String → List ColumnMetadata)
    (dq : DecomposedQuery) (tn : String) :
    ContextEnricher._build_filters { ms with get_relevant_columns := g } dq tn =
      ContextEnricher._build_filters ms dq tn := by
  unfold ContextEnricher._build_filters
  rw [entityFilters_grc, find_date_grc]

/-- Under a `count_`/`aggregate_` intent, output-column selection does not
read `get_relevant_columns`. -/
lemma output_columns_grc (ms : MetaStore) (g : String → String → List ColumnMetadata)
    (dq : DecomposedQuery)
    (hi : dq.intent_goal.startsWith "count_" = true ∨
      dq.intent_goal.startsWith "aggregate_" = true) :
    ∀ tn, ContextEnricher._determine_output_columns { ms with get_relevant_columns := g } dq tn =
      ContextEnricher._determine_output_columns ms dq tn := by
  intro tn
  unfold ContextEnricher._determine_output_columns
  have hproj : ({ ms with get_relevant_columns := g } : MetaStore).get_table_metadata =
    ms.get_table_metadata := rfl
  rw [hproj]
  cases hgt : ms.get_table_metadata tn with
  | none => rfl
  | some tm =>
    have hcond : (dq.intent_goal.startsWith "count_" ||
        dq.intent_goal.startsWith "aggregate_") = true := by
      rcases hi with hi | hi <;> simp [hi]
    simp only [hcond, if_true]

/-!
### Claim theorems
-/

/-- C1 (counterexample): the claimed invariant fails on the code.  With an
entity pre-mapped to the column `ghost`, `enrich_query` returns a
`ContextualData` whose filter names `ghost`, which is not a column of the
resolved primary table `orders` — no step validates filter columns against
the table's column metadata. -/
theorem c1_counterexample :
    ContextEnricher.enrich_query msGood dqGhost = .ok cdGhost ∧
    cdGhost.filters = [⟨"status", "ghost", "=", .str "open"⟩] ∧
    cdGhost.table_metadata.primary_table = "orders" ∧
    msGood.get_table_metadata "orders" = some ordersTable ∧
    (ordersTable.columns.map (fun c => c.name)).contains "ghost" = false := by
  refine ⟨by with_unfolding_all rfl, rfl, rfl, by with_unfolding_all rfl,
    by with_unfolding_all decide⟩

/-- C1 (amended): every `FilterSpec.column_name` of a returned
`ContextualData` exists in the primary table's column metadata PROVIDED the
pre-supplied entity `mapped_column`s, the table-restricted schema-search
results, and the table-heads results only name columns of that table.  The
temporal date-range column always comes from the table's own metadata. -/
theorem c1_filter_columns_amended (ms : MetaStore) (dq : DecomposedQuery)
    (cd : ContextualData) (tm : TableMetadata)
    (h : ContextEnricher.enrich_query ms dq = .ok cd)
    (htm : ms.get_table_metadata cd.table_metadata.primary_table = some tm)
    (hmapped : ∀ e ∈ dq.entity_extraction, e.mapped_column ≠ "" →
      e.mapped_column ∈ tm.columns.map (fun c => c.name))
    (hschema : ∀ q k r, r ∈ ms.search_schema q (some cd.table_metadata.primary_table) k →
      r.name ∈ tm.columns.map (fun c => c.name))
    (hheads : ∀ q k m, m ∈ ms.search_table_heads q cd.table_metadata.primary_table k →
      m.column_name ∈ tm.columns.map (fun c => c.name)) :
    ∀ f ∈ cd.filters, f.column_name ∈ tm.columns.map (fun c => c.name) := by
  obtain ⟨pt, tmo, fs, oc, hpt, htmo, hfs, hoc, hval, rfl⟩ := enrich_query_ok_elim h
  have hptmo : tmo.primary_table = pt := get_table_metadata_primary htmo
  dsimp only at htm hschema hheads ⊢
  rw [hptmo] at htm hschema hheads
  have hef : ContextEnricher._build_filters ms dq pt = .ok fs := hfs
  unfold ContextEnricher._build_filters at hef
  split at hef
  · exact Except.noConfusion hef
  next efs hefs =>
    have hefc : ∀ f ∈ efs, f.column_name ∈ tm.columns.map (fun c => c.name) :=
      entityFilters_columns hefs hmapped hschema hheads
    split at hef
    next temporal htemp =>
      split at hef
      next dc hdc =>
        cases hef
        intro f hf
        rcases List.mem_append.mp hf with hf1 | hf2
        · exact hefc f hf1
        · have : f = ⟨"date_range", dc, "BETWEEN", temporal.value⟩ :=
            List.eq_of_mem_singleton hf2
          rw [this]
          exact ce_find_date_column_mem hdc htm
      · cases hef; exact hefc
    · cases hef; exact hefc

/-- Witness for C1 (amended): on a concrete metastore satisfying the
hypotheses, the `status` filter produced by `enrich_query` names a column of
the `orders` table. -/
theorem c1_witness :
    (⟨"status", "status", "=", PyVal.str "open"⟩ : FilterSpec).column_name ∈
      ordersTable.columns.map (fun c => c.name) :=
  c1_filter_columns_amended msGood dqGood cdGood ordersTable
    (by with_unfolding_all rfl) (by with_unfolding_all rfl)
    (by intro e he hm
        have he' : e = ⟨"status", .str "open", ""⟩ := List.eq_of_mem_singleton he
        rw [he'] at hm
        exact absurd rfl hm)
    (by intro q k r hr
        have hr' : r = ⟨"status", some (8/10)⟩ := by simpa [msGood] using hr
        rw [hr']
        with_unfolding_all decide)
    (by intro q k m hm
        simp [msGood] at hm)
    ⟨"status", "status", "=", .str "open"⟩ (by with_unfolding_all exact List.mem_cons_self _ _)

/-- C2: `enrich_query` returns a record only when validation succeeds, which
forces a non-empty intent, filters list, output-columns list and a set
primary table; every validation failure is one of the `IncompleteContext`
errors; and when the assembled record fails validation, `enrich_query`
returns exactly that error and no partial record. -/
theorem c2_validation_gate :
    (∀ ms dq cd, ContextEnricher.enrich_query ms dq = .ok cd →
      cd.intent ≠ "" ∧ cd.filters ≠ [] ∧ cd.output_columns ≠ [] ∧
        cd.table_metadata.primary_table ≠ "") ∧
    (∀ cd e, ContextEnricher._validate_contextual_data cd = .error e →
      e.isIncompleteContext = true) ∧
    (∀ ms dq pt tmo fs oc e,
      ContextEnricher._determine_primary_table ms dq = .ok pt →
      ContextEnricher._get_table_metadata ms pt = .ok tmo →
      ContextEnricher._build_filters ms dq pt = .ok fs →
      ContextEnricher._determine_output_columns ms dq pt = .ok oc →
      ContextEnricher._validate_contextual_data ⟨dq.intent_goal,
        ⟨dq.context_description, dq.context_expected_output⟩, tmo, fs, oc⟩ = .error e →
      ContextEnricher.enrich_query ms dq = .error e) := by
  refine ⟨?_, ?_, ?_⟩
  · intro ms dq cd h
    obtain ⟨pt, tmo, fs, oc, -, -, -, -, hval, -⟩ := enrich_query_ok_elim h
    exact validate_ok_fields hval
  · intro cd e h
    unfold ContextEnricher._validate_contextual_data at h
    split_ifs at h <;> first
      | (cases h; rfl)
      | exact Except.noConfusion h
  · intro ms dq pt tmo fs oc e hpt htmo hfs hoc hval
    simp only [ContextEnricher.enrich_query, ContextEnricher._initialize_contextual_data,
      hpt, htmo, hfs, hoc, hval]

/-- Witness for C2: a query with no entities and no temporal filter builds an
empty filters list, so enrichment fails with the `IncompleteContext` error
for the `filters` field. -/
theorem c2_witness :
    ContextEnricher.enrich_query msGood dqEmpty = .error (.missingField "filters") ∧
    CtxError.isIncompleteContext (.missingField "filters") = true := by
  constructor
  · exact c2_validation_gate.2.2 msGood dqEmpty "orders" _ [] _ _
      (by with_unfolding_all rfl) (by with_unfolding_all rfl) (by with_unfolding_all rfl)
      (by with_unfolding_all rfl) (by with_unfolding_all rfl)
  · exact c2_validation_gate.2.1 ⟨"x", ⟨"", ""⟩, ⟨"t", "", []⟩, [], []⟩ _
      (by with_unfolding_all rfl)

/-- C3 (counterexample): `enrich_query` propagates an entity-level resolution
failure to its caller.  With a metastore whose column search and table-heads
search return nothing for the `status` entity, the whole enrichment aborts
with the mapping `ValueError` instead of dropping the filter. -/
theorem c3_counterexample :
    ContextEnricher.enrich_query msNoColumns dqGood =
      .error (.couldNotMapEntity "status" "open") := by
  with_unfolding_all rfl

/-- C3 (amended): in `FilterBuilder` (which `ContextEnricher.enrich_query`
does not use), an entity whose cascade resolution fails is dropped —
`_build_entity_filter` returns `None` rather than an error, and
`build_filters` on a list containing the failing entity equals
`build_filters` on the list without it. -/
theorem c3_filter_builder_drops (ms : MetaStore) (today : Date)
    (entities₁ entities₂ : List Entity) (e : Entity) (tf : Option TemporalFilter)
    (table_name : String) (msg : String)
    (hm : e.mapped_column = "")
    (hfail : SchemaMapper.map_entity_to_column ms e.entity_type (pyStr e.entity_value)
      table_name = .error msg) :
    FilterBuilder._build_entity_filter ms e table_name = .ok none ∧
    FilterBuilder.build_filters ms today (entities₁ ++ e :: entities₂) tf table_name =
      FilterBuilder.build_filters ms today (entities₁ ++ entities₂) tf table_name := by
  have hbe : FilterBuilder._build_entity_filter ms e table_name = .ok none := by
    unfold FilterBuilder._build_entity_filter
    by_cases hguard : (e.entity_type = "" || pyFalsy e.entity_value) = true
    · rw [if_pos hguard]
    · rw [if_neg hguard, if_pos hm, hfail]
      rfl
  refine ⟨hbe, ?_⟩
  have hent : ∀ l : List Entity,
      FilterBuilder.entityFilters ms table_name (l ++ e :: entities₂) =
        FilterBuilder.entityFilters ms table_name (l ++ entities₂) := by
    intro l
    induction l with
    | nil =>
      simp only [List.nil_append, FilterBuilder.entityFilters, List.append_eq, hbe]
    | cons x xs ih =>
      simp only [List.cons_append, FilterBuilder.entityFilters, List.append_eq, ih]
  unfold FilterBuilder.build_filters
  rw [hent entities₁]

/-- Witness for C3 (amended): a concrete unresolvable `region` entity is
dropped by `FilterBuilder.build_filters` while the pre-mapped `status`
entity proceeds. -/
theorem c3_witness :
    FilterBuilder._build_entity_filter msNoColumns regionEntity "orders" = .ok none ∧
    FilterBuilder.build_filters msNoColumns (Date.mk 2026 10 12)
        [regionEntity, premappedEntity] none "orders" =
      FilterBuilder.build_filters msNoColumns (Date.mk 2026 10 12)
        [premappedEntity] none "orders" :=
  c3_filter_builder_drops msNoColumns (Date.mk 2026 10 12) [] [premappedEntity]
    regionEntity none "orders" _ (by with_unfolding_all rfl) (by with_unfolding_all rfl)

/-- C4: stage 1 of the cascade accepts its best column-metadata match when
the score strictly exceeds 0.7; at a score of exactly 0.7 resolution falls
through to stage 2, which accepts a sample-value match only when its score
strictly exceeds 0.8 (a stage-2 score of exactly 0.8 also falls through,
and with no SQL-pair match the stage-1 candidate is returned by stage 4). -/
theorem c4_stage1_threshold (ms : MetaStore) (entity_type entity_value table_name : String)
    (c : String) (s : ℚ)
    (h1 : SchemaMapper._search_column_metadata ms entity_type entity_value table_name =
      some (c, s)) :
    ((7/10 : ℚ) < s →
      SchemaMapper.map_entity_to_column ms entity_type entity_value table_name = .ok (c, s)) ∧
    (s = 7/10 → ∀ c2 s2,
      SchemaMapper._search_table_heads ms entity_value table_name = some (c2, s2) →
      (8/10 : ℚ) < s2 →
      SchemaMapper.map_entity_to_column ms entity_type entity_value table_name = .ok (c2, s2)) ∧
    (s = 7/10 → ∀ c2,
      SchemaMapper._search_table_heads ms entity_value table_name = some (c2, 8/10) →
      SchemaMapper._search_sql_pairs ms entity_type entity_value table_name = none →
      SchemaMapper.map_entity_to_column ms entity_type entity_value table_name = .ok (c, s)) := by
  refine ⟨?_, ?_, ?_⟩
  · intro hs
    unfold SchemaMapper.map_entity_to_column
    simp only [h1, acceptAbove, if_pos hs]
  · intro hs c2 s2 h2 hs2
    unfold SchemaMapper.map_entity_to_column
    have hns : ¬ (7/10 : ℚ) < s := by rw [hs]; exact lt_irrefl _
    simp only [h1, h2, acceptAbove, if_neg hns, if_pos hs2]
  · intro hs c2 h2 h3
    unfold SchemaMapper.map_entity_to_column
    have hns : ¬ (7/10 : ℚ) < s := by rw [hs]; exact lt_irrefl _
    have hns2 : ¬ (8/10 : ℚ) < (8/10 : ℚ) := lt_irrefl _
    simp only [h1, h2, h3, acceptAbove, if_neg hns, if_neg hns2]

/-- Witness for C4: a stage-1 match scoring exactly 0.7 is not accepted at
stage 1; the stage-2 sample match scoring 0.9 is returned instead. -/
theorem c4_witness :
    SchemaMapper.map_entity_to_column msCascade "status" "open" "orders" =
      .ok ("st_sample", 9/10) :=
  (c4_stage1_threshold msCascade "status" "open" "orders" "status" (7/10)
    (by with_unfolding_all rfl)).2.1 rfl "st_sample" (9/10)
    (by with_unfolding_all rfl) (by with_unfolding_all decide)

/-- C5: when stage 1 produced a candidate with score at or below 0.7 and
stages 2 and 3 do not accept, `map_entity_to_column` returns the stage-1
candidate with its confidence unmodified — and the result is independent of
`get_table_metadata`, the only input of the stage-5 heuristic, so the
heuristic is never consulted when stage 1 produced any result. -/
theorem c5_degraded_acceptance (ms : MetaStore) (entity_type entity_value table_name : String)
    (c : String) (s : ℚ)
    (h1 : SchemaMapper._search_column_metadata ms entity_type entity_value table_name =
      some (c, s))
    (hs : ¬ (7/10 : ℚ) < s)
    (h2 : acceptAbove (SchemaMapper._search_table_heads ms entity_value table_name)
      (8/10) = none)
    (h3 : SchemaMapper._search_sql_pairs ms entity_type entity_value table_name = none) :
    SchemaMapper.map_entity_to_column ms entity_type entity_value table_name = .ok (c, s) ∧
    ∀ g, SchemaMapper.map_entity_to_column { ms with get_table_metadata := g }
      entity_type entity_value table_name = .ok (c, s) := by
  have key : ∀ g, SchemaMapper.map_entity_to_column { ms with get_table_metadata := g }
      entity_type entity_value table_name = .ok (c, s) := by
    intro g
    have h1' : SchemaMapper._search_column_metadata { ms with get_table_metadata := g }
        entity_type entity_value table_name = some (c, s) := h1
    have h2' : acceptAbove (SchemaMapper._search_table_heads { ms with get_table_metadata := g }
        entity_value table_name) (8/10) = none := h2
    have h3' : SchemaMapper._search_sql_pairs { ms with get_table_metadata := g }
        entity_type entity_value table_name = none := h3
    unfold SchemaMapper.map_entity_to_column
    simp only [h1']
    have ha : acceptAbove (some (c, s)) (7/10) = none := by
      simp only [acceptAbove, if_neg hs]
    rw [ha, h2', h3']
  exact ⟨key ms.get_table_metadata, key⟩

/-- Witness for C5: a 0.5-confidence stage-1 match is returned unmodified
when the sample match scores exactly 0.8 and no SQL pair matches, even
though the heuristic stage would have matched the `status` column. -/
theorem c5_witness :
    SchemaMapper.map_entity_to_column msWeak "status" "open" "orders" = .ok ("status", 1/2) :=
  (c5_degraded_acceptance msWeak "status" "open" "orders" "status" (1/2)
    (by with_unfolding_all rfl) (by with_unfolding_all decide)
    (by with_unfolding_all rfl) (by with_unfolding_all rfl)).1

/-- C6: operator selection on a string value follows the spec's order —
negation prefixes give `!=`, then comparison-phrase prefixes give the
comparison operator, then the static type table, then `=`; and
`"greater than 100"` with type `amount` yields operator `>` with the value
normalized to the integer 100. -/
theorem c6_operator_selection :
    (∀ entity_type value, FilterBuilder._determine_operator entity_type (.str value) =
      specOperatorSelection entity_type value) ∧
    FilterBuilder._determine_operator "amount" (.str "greater than 100") = ">" ∧
    FilterBuilder._process_filter_value (.str "greater than 100") ">" = .ok (.int 100) := by
  refine ⟨?_, by with_unfolding_all rfl, by with_unfolding_all rfl⟩
  intro entity_type value
  unfold FilterBuilder._determine_operator specOperatorSelection
  rw [specNegationMarks_any, firstGroupOperator_eval]
  simp only [Bool.or_false, Bool.or_assoc]
  split_ifs <;> rfl

/-- C7 (code bug): BETWEEN normalization splits `"1 to 5"` into two trimmed
bounds, but `"1 To 5"` — where the separator matches only case-insensitively
— raises `IndexError`, because membership is tested on the lowercased string
while the split runs on the original; normalization is not total. -/
theorem c7_between_indexerror :
    FilterBuilder._process_filter_value (.str "1 to 5") "BETWEEN" =
      .ok (.list [.str "1", .str "5"]) ∧
    FilterBuilder._process_filter_value (.str "1 To 5") "BETWEEN" = .error .indexError := by
  exact ⟨by with_unfolding_all rfl, by with_unfolding_all rfl⟩

/-- C8: with a fixed `today`, `"last week"` resolves to
`[today-7d, today]`; the temporal filter built from it carries operator
`BETWEEN`; and in general a two-element list derives `BETWEEN`, a single
value (string or one-element list) derives `=`, and anything else derives
`>`. -/
theorem c8_temporal_last_week (today : Date) :
    FilterBuilder._resolve_temporal_expression today "last week" =
      [(today.subDays 7).isoformat, today.isoformat] ∧
    (∀ ms table_name date_column,
      SchemaMapper.find_date_column ms table_name = some date_column →
      (FilterBuilder._build_temporal_filter ms today
          (some ⟨.list [], "last week"⟩) table_name =
        some ⟨"date_range", date_column, "BETWEEN",
          .list [.str (today.subDays 7).isoformat, .str today.isoformat]⟩) ∧
      (∀ a b, FilterBuilder._build_temporal_filter ms today
          (some ⟨.list [a, b], ""⟩) table_name =
        some ⟨"date_range", date_column, "BETWEEN", .list [a, b]⟩) ∧
      (∀ a, FilterBuilder._build_temporal_filter ms today
          (some ⟨.list [PyVal.str a], ""⟩) table_name =
        some ⟨"date_range", date_column, "=", .str a⟩) ∧
      (∀ s, FilterBuilder._build_temporal_filter ms today
          (some ⟨.str s, ""⟩) table_name =
        some ⟨"date_range", date_column, "=", .str s⟩) ∧
      (∀ n, FilterBuilder._build_temporal_filter ms today
          (some ⟨.int n, ""⟩) table_name =
        some ⟨"date_range", date_column, ">", .int n⟩) ∧
      (FilterBuilder._build_temporal_filter ms today
          (some ⟨.list [], ""⟩) table_name =
        some ⟨"date_range", date_column, ">", .list []⟩)) := by
  constructor
  · with_unfolding_all rfl
  · intro ms table_name date_column hd
    have hres : FilterBuilder._resolve_temporal_expression today "last week" =
        [(today.subDays 7).isoformat, today.isoformat] := by with_unfolding_all rfl
    refine ⟨?_, ?_, ?_, ?_, ?_, ?_⟩
    · unfold FilterBuilder._build_temporal_filter
      rw [hd]
      simp only [hres, pyFalsy, List.isEmpty_nil, List.map]
      rw [if_pos (show True ∧ "last week" ≠ "" from ⟨trivial, by with_unfolding_all decide⟩)]
    · intro a b
      unfold FilterBuilder._build_temporal_filter
      rw [hd]
      simp [pyFalsy]
    · intro a
      unfold FilterBuilder._build_temporal_filter
      rw [hd]
      simp [pyFalsy]
    · intro s
      unfold FilterBuilder._build_temporal_filter
      rw [hd]
      simp [pyFalsy]
    · intro n
      unfold FilterBuilder._build_temporal_filter
      rw [hd]
      simp [pyFalsy]
    · unfold FilterBuilder._build_temporal_filter
      rw [hd]
      simp [pyFalsy]

/-- Witness for C8: on 2026-10-12 the `"last week"` temporal filter is a
`BETWEEN` over the table's `created_at` column with the concrete bounds. -/
theorem c8_witness :
    FilterBuilder._build_temporal_filter msGood (Date.mk 2026 10 12)
        (some ⟨.list [], "last week"⟩) "orders" =
      some ⟨"date_range", "created_at", "BETWEEN",
        .list [.str ((Date.mk 2026 10 12).subDays 7).isoformat,
               .str (Date.mk 2026 10 12).isoformat]⟩ :=
  ((c8_temporal_last_week (Date.mk 2026 10 12)).2 msGood "orders" "created_at"
    (by with_unfolding_all rfl)).1

/-- C9 (counterexample): `ContextEnricher._find_date_column` returns the
name-pattern column `created_flag` (type `BOOLEAN`, not date-typed) even
though the table has the type-matched `DATE` column `ts`, which
`SchemaMapper.find_date_column` correctly prefers. -/
theorem c9_counterexample :
    ContextEnricher._find_date_column msMixed "events" = some "created_flag" ∧
    SchemaMapper.find_date_column msMixed "events" = some "ts" ∧
    (SchemaMapper.dateTypePatterns.any
      (fun dt => containsSubstr "BOOLEAN".toUpper dt)) = false ∧
    (SchemaMapper.dateTypePatterns.any
      (fun dt => containsSubstr "DATE".toUpper dt)) = true ∧
    mixedColumns.map (fun c => (c.name, c.data_type)) =
      [("created_flag", "BOOLEAN"), ("ts", "DATE")] := by
  refine ⟨by with_unfolding_all rfl, by with_unfolding_all rfl,
    by with_unfolding_all decide, by with_unfolding_all decide,
    by with_unfolding_all rfl⟩

/-- C9 (amended): for `SchemaMapper.find_date_column`, whenever the table
has a column whose declared data type contains `DATE`, `TIME` or
`TIMESTAMP`, the returned column is such a type-matched column. -/
theorem c9_typed_date_first (ms : MetaStore) (table_name : String) (tm : TableMetadata)
    (h : ms.get_table_metadata table_name = some tm)
    (hex : ∃ c ∈ tm.columns, (SchemaMapper.dateTypePatterns.any
      (fun dt => containsSubstr c.data_type.toUpper dt)) = true) :
    ∃ c ∈ tm.columns, SchemaMapper.find_date_column ms table_name = some c.name ∧
      (SchemaMapper.dateTypePatterns.any
        (fun dt => containsSubstr c.data_type.toUpper dt)) = true := by
  have key : ∀ l : List ColumnMetadata,
      (∃ c ∈ l, (SchemaMapper.dateTypePatterns.any
        (fun dt => containsSubstr c.data_type.toUpper dt)) = true) →
      ∃ c ∈ l, SchemaMapper.firstTypeDateColumn l = some c.name ∧
        (SchemaMapper.dateTypePatterns.any
          (fun dt => containsSubstr c.data_type.toUpper dt)) = true := by
    intro l
    induction l with
    | nil => rintro ⟨c, hc, -⟩; exact absurd hc (List.not_mem_nil c)
    | cons c rest ih =>
      intro hex
      by_cases hc : (SchemaMapper.dateTypePatterns.any
          (fun dt => containsSubstr c.data_type.toUpper dt)) = true
      · exact ⟨c, List.mem_cons_self c rest, by
          unfold SchemaMapper.firstTypeDateColumn
          rw [if_pos hc], hc⟩
      · obtain ⟨c', hc', hpat⟩ := hex
        rcases List.mem_cons.mp hc' with rfl | hmem
        · exact absurd hpat hc
        · obtain ⟨c'', hm'', hfirst, hp''⟩ := ih ⟨c', hmem, hpat⟩
          refine ⟨c'', List.mem_cons_of_mem c hm'', ?_, hp''⟩
          unfold SchemaMapper.firstTypeDateColumn
          rw [if_neg hc]
          exact hfirst
  obtain ⟨c, hm, hfirst, hp⟩ := key tm.columns hex
  refine ⟨c, hm, ?_, hp⟩
  unfold SchemaMapper.find_date_column
  rw [h]
  simp only [hfirst]

/-- Witness for C9 (amended): on the mixed table, `SchemaMapper`'s lookup
returns the `DATE`-typed column. -/
theorem c9_witness :
    ∃ c ∈ mixedTable.columns, SchemaMapper.find_date_column msMixed "events" = some c.name ∧
      (SchemaMapper.dateTypePatterns.any
        (fun dt => containsSubstr c.data_type.toUpper dt)) = true :=
  c9_typed_date_first msMixed "events" mixedTable (by with_unfolding_all rfl)
    ⟨⟨"ts", "DATE", true, "", false, none⟩, by with_unfolding_all decide,
      by with_unfolding_all decide⟩

/-- C10: under a `count_`/`aggregate_` intent goal, every output column of
the returned `ContextualData` is a primary-key column or an `id`-named
column of the table, and the result is unchanged under any
`get_relevant_columns` (the semantic search is never consulted). -/
theorem c10_count_key_columns (ms : MetaStore) (dq : DecomposedQuery)
    (cd : ContextualData) (tm : TableMetadata)
    (h : ContextEnricher.enrich_query ms dq = .ok cd)
    (hi : dq.intent_goal.startsWith "count_" = true ∨
      dq.intent_goal.startsWith "aggregate_" = true)
    (htm : ms.get_table_metadata cd.table_metadata.primary_table = some tm) :
    (∀ oc ∈ cd.output_columns, ∃ c ∈ tm.columns, oc.column_name = c.name ∧
      (c.is_primary_key || containsSubstr c.name.toLower "id") = true) ∧
    ∀ grc, ContextEnricher.enrich_query { ms with get_relevant_columns := grc } dq =
      .ok cd := by
  constructor
  · obtain ⟨pt, tmo, fs, oc, hpt, htmo, hfs, hoc, hval, rfl⟩ := enrich_query_ok_elim h
    have hptmo : tmo.primary_table = pt := get_table_metadata_primary htmo
    dsimp only at htm ⊢
    rw [hptmo] at htm
    unfold ContextEnricher._determine_output_columns at hoc
    rw [htm] at hoc
    have hcond : (dq.intent_goal.startsWith "count_" ||
        dq.intent_goal.startsWith "aggregate_") = true := by
      rcases hi with hi | hi <;> simp [hi]
    simp only [hcond, if_true] at hoc
    cases hoc
    exact key_columns_property
  · intro grc
    have : ContextEnricher.enrich_query { ms with get_relevant_columns := grc } dq =
        ContextEnricher.enrich_query ms dq := by
      unfold ContextEnricher.enrich_query
      simp only [primary_table_grc, table_metadata_grc, build_filters_grc,
        output_columns_grc ms grc dq hi]
    rw [this]
    exact h

/-- Witness for C10: a `count_orders` query on the `orders` table yields the
primary-key column `order_id`. -/
theorem c10_witness :
    ∃ c ∈ ordersTable.columns,
      (⟨"order_id", "Order Id", "", ⟨"INTEGER", false⟩⟩ : OutputColumn).column_name = c.name ∧
      (c.is_primary_key || containsSubstr c.name.toLower "id") = true :=
  (c10_count_key_columns msGood dqCount cdCount ordersTable (by with_unfolding_all rfl)
    (Or.inl (by with_unfolding_all rfl)) (by with_unfolding_all rfl)).1
    ⟨"order_id", "Order Id", "", ⟨"INTEGER", false⟩⟩
    (by with_unfolding_all exact List.mem_cons_self _ _)
